import Mathlib

/-!
# bruxism IRC service adapter (bot/irc.go)

A shallow embedding of the IRC service of `bot/irc.go` and the properties of
its specification.

The adapter talks to an IRC connection object of the goirc client library.
That library is not part of the repository, so the connection is embedded as a
record that keeps what the adapter can observe or cause on it: the own
nickname, the two configuration strings the adapter writes, the registered
handlers, the lifecycle status and the log of the calls issued on it
(`Join`, `ConnectTo`, `Privmsg`, `Kick`), in the order they were issued.
The library's constants and the two `Line` methods the adapter calls
(`Target`, `Text`) are parameters, collected in `Client`.

Go pointers that may be nil are `Option`; a nil dereference is the error value
`Panic.nilDeref`. A Go `error` result is `Option GoError` (`none` is `nil`).
The buffered channel is a record of its capacity, its queued elements and the
senders parked on it.
-/

namespace Bruxism

set_option linter.dupNamespace false

/-! ## The client library, as far as the adapter uses it -/

/-- The parsed IRC line of the client library (`client.Line`): prefix parts,
command, arguments. -/
structure Line where
  Nick : String
  Ident : String
  Host : String
  Src : String
  Cmd : String
  Raw : String
  Args : List String
  deriving DecidableEq, Repr

/-- What the adapter takes from the client library without defining it: the
event name constant `client.PRIVMSG`, the methods `Line.Target` and
`Line.Text`, and the two configuration defaults that `Open` overwrites. -/
structure Client where
  PRIVMSG : String
  Target : Line → String
  Text : Line → String
  DefaultVersion : String
  DefaultQuitMessage : String

/-- The three methods of the adapter that `Open` registers as event handlers
(Go method values bound to the adapter). -/
inductive Handler where
  | onConnect
  | onDisconnect
  | onMessage
  deriving DecidableEq, Repr

/-- A call issued on the connection. -/
inductive ConnCall where
  | Join (channel : String)
  | ConnectTo (host : String)
  | Privmsg (target : String) (text : String)
  | Kick (channel : String) (nick : String)
  deriving DecidableEq, Repr

/-- Modelled from the spec: the connection lifecycle of section 4.2
(`Unopened → Connecting → Connected → Disconnected → Connecting → …`); the
transport library that realises it is outside the repository. `Unopened` is
the adapter without a connection handle. -/
inductive Phase where
  | Unopened
  | Connecting
  | Connected
  | Disconnected
  deriving DecidableEq, Repr

/-- The own identity of a connection (`state.Nick` behind `Conn.Me()`). -/
structure Me where
  Nick : String
  Ident : String
  Name : String
  deriving DecidableEq, Repr

/-- The connection object (`*client.Conn`), as observed by the adapter. -/
structure Conn where
  me : Me
  Version : String
  QuitMessage : String
  handlers : List (String × Handler)
  status : Phase
  calls : List ConnCall
  deriving DecidableEq, Repr

/-- The library constructor `client.SimpleClient(nick, ident, name)`: a fresh
connection with no handler of the caller and no call issued yet. -/
def Client.SimpleClient (cl : Client) (nick ident name : String) : Conn :=
  { me := ⟨nick, ident, name⟩
    Version := cl.DefaultVersion
    QuitMessage := cl.DefaultQuitMessage
    handlers := []
    status := Phase.Unopened
    calls := [] }

/-- The library method `conn.HandleFunc(name, f)`: registers `f` for the
event `name`, after the handlers registered before. -/
def Conn.HandleFunc (c : Conn) (name : String) (h : Handler) : Conn :=
  { c with handlers := c.handlers ++ [(name, h)] }

/-- The library method `conn.Join(channel)`. -/
def Conn.Join (c : Conn) (channel : String) : Conn :=
  { c with calls := c.calls ++ [ConnCall.Join channel] }

/-- The library method `conn.ConnectTo(host)`: a connect attempt, which takes
the lifecycle to `Connecting`. -/
def Conn.ConnectTo (c : Conn) (host : String) : Conn :=
  { c with calls := c.calls ++ [ConnCall.ConnectTo host], status := Phase.Connecting }

/-- The library method `conn.Privmsg(target, text)`. -/
def Conn.Privmsg (c : Conn) (target text : String) : Conn :=
  { c with calls := c.calls ++ [ConnCall.Privmsg target text] }

/-- The library method `conn.Kick(channel, nick)`. -/
def Conn.Kick (c : Conn) (channel nick : String) : Conn :=
  { c with calls := c.calls ++ [ConnCall.Kick channel nick] }

/-- The transport changes the own nickname of the connection (nick collision
suffix, NICK from the server). -/
def Conn.setNick (c : Conn) (n : String) : Conn :=
  { c with me := { c.me with Nick := n } }

/-- The lifecycle effect of a transport event, applied before its handlers
run: `connected` and `disconnected` move the status, other events keep it. -/
def Conn.signal (c : Conn) (name : String) : Conn :=
  if name = "connected" then { c with status := Phase.Connected }
  else if name = "disconnected" then { c with status := Phase.Disconnected }
  else c

/-! ## Go values -/

/-- A Go run-time panic. -/
inductive Panic where
  | nilDeref
  deriving DecidableEq, Repr

/-- A Go `error` value made by `errors.New(text)`. -/
structure GoError where
  text : String
  deriving DecidableEq, Repr

/-- The function `errors.New`. -/
def errors.New (text : String) : GoError := ⟨text⟩

/-- A Go channel made by `make(chan α, cap)`: `buf` are the queued elements,
oldest first; `sendq` are the values of the senders parked on the channel,
in the order they arrived. -/
structure Chan (α : Type) where
  cap : Nat
  buf : List α
  sendq : List α
  deriving DecidableEq, Repr

/-- The Go statement `make(chan α, n)`. -/
def Chan.make {α : Type} (n : Nat) : Chan α := ⟨n, [], []⟩

/-- The Go statement `c <- v` on a non-nil channel: with room in the buffer
the value is queued last and the send completes; otherwise the sender parks
with its value and the buffer is untouched. -/
def Chan.send {α : Type} (c : Chan α) (v : α) : Chan α :=
  if c.buf.length < c.cap then { c with buf := c.buf ++ [v] }
  else { c with sendq := c.sendq ++ [v] }

/-- Whether the send `c <- v` completes at once. -/
def Chan.sendCompletes {α : Type} (c : Chan α) : Bool :=
  decide (c.buf.length < c.cap)

/-- The Go expression `<-c` on a non-nil channel: the oldest queued element
is received, and the first parked sender, if any, completes its send at the
tail of the buffer; with an empty buffer a parked sender hands its value over
directly; with neither, the receiver would block (`none`). -/
def Chan.recv {α : Type} (c : Chan α) : Option (α × Chan α) :=
  match c.buf, c.sendq with
  | x :: rest, [] => some (x, { c with buf := rest })
  | x :: rest, s :: q => some (x, { c with buf := rest ++ [s], sendq := q })
  | [], s :: q => some (s, { c with sendq := q })
  | [], [] => none

/-! ## Messages -/

/-- Modelled from the spec: the `Message` interface (declared in the
repository outside `bot/irc.go`), the capability set `Channel()`,
`UserName()`, `UserID()`, `UserAvatar()`, `Message()`, `MessageID()`,
`IsModerator()` of section 4.1. An interface value is the record of what its
accessors return. -/
structure Message where
  Channel : String
  UserName : String
  UserID : String
  UserAvatar : String
  Message : String
  MessageID : String
  IsModerator : Bool
  deriving DecidableEq, Repr

/-- The service name for the IRC service. -/
def IRCServiceName : String := "IRC"

/-- The type `IRCMessage`: a Message wrapper around `client.Line`. -/
structure IRCMessage where
  line : Line
  deriving DecidableEq, Repr

/-- The channel id for this message. -/
def IRCMessage.Channel (cl : Client) (m : IRCMessage) : String :=
  cl.Target m.line

/-- The user name for this message. -/
def IRCMessage.UserName (m : IRCMessage) : String := m.line.Nick

/-- The user id for this message. -/
def IRCMessage.UserID (m : IRCMessage) : String := m.line.Nick

/-- The avatar url for this message. -/
def IRCMessage.UserAvatar (_m : IRCMessage) : String := ""

/-- The message content for this message. -/
def IRCMessage.Message (cl : Client) (m : IRCMessage) : String :=
  cl.Text m.line

/-- The message ID for this message. -/
def IRCMessage.MessageID (_m : IRCMessage) : String := ""

/-- Whether or not the sender of this message is a moderator. -/
def IRCMessage.IsModerator (_m : IRCMessage) : Bool := false

/-- The interface value `Message` that holds a `*IRCMessage`. -/
def IRCMessage.toMessage (cl : Client) (m : IRCMessage) : Bruxism.Message :=
  { Channel := IRCMessage.Channel cl m
    UserName := IRCMessage.UserName m
    UserID := IRCMessage.UserID m
    UserAvatar := IRCMessage.UserAvatar m
    Message := IRCMessage.Message cl m
    MessageID := IRCMessage.MessageID m
    IsModerator := IRCMessage.IsModerator m }

/-! ## The adapter -/

/-- The type `IRC`: a Service provider for IRC. -/
structure IRC where
  host : String
  nick : String
  channels : List String
  Conn : Option Conn
  messageChan : Option (Chan Message)
  deriving DecidableEq, Repr

/-- Creates a new IRC service. -/
def NewIRC (host nick : String) (channels : List String) : IRC :=
  { host := host
    nick := nick
    channels := channels
    Conn := none
    messageChan := some (Chan.make 200) }

/-- The handler of PRIVMSG events: wraps the line and sends it on the
outbound channel. A send on a nil channel parks for ever and changes
nothing. -/
def IRC.onMessage (cl : Client) (i : IRC) (_conn : Bruxism.Conn) (line : Line) : IRC :=
  let m : IRCMessage := ⟨line⟩
  match i.messageChan with
  | none => i
  | some c => { i with messageChan := some (c.send (m.toMessage cl)) }

/-- The handler of `connected` events: joins every configured channel on the
connection that raised the event. -/
def IRC.onConnect (i : IRC) (conn : Bruxism.Conn) (_line : Line) : Bruxism.Conn :=
  i.channels.foldl (fun acc c => acc.Join c) conn

/-- The handler of `disconnected` events: connects again to the host. -/
def IRC.onDisconnect (i : IRC) (conn : Bruxism.Conn) (_line : Line) : Bruxism.Conn :=
  conn.ConnectTo i.host

/-- The name of the service. -/
def IRC.Name (_i : IRC) : String := IRCServiceName

/-- Opens the service: creates the connection, registers the three handlers,
starts the connect attempt and returns the outbound channel with a nil
error. -/
def IRC.Open (cl : Client) (i : IRC) : IRC × Option (Chan Message) × Option GoError :=
  let c0 := cl.SimpleClient i.nick "Septapus" "Septapus"
  let c1 := { c0 with Version := "Septapus" }
  let c2 := { c1 with QuitMessage := "" }
  let c3 := c2.HandleFunc "connected" Handler.onConnect
  let c4 := c3.HandleFunc "disconnected" Handler.onDisconnect
  let c5 := c4.HandleFunc cl.PRIVMSG Handler.onMessage
  let c6 := c5.ConnectTo i.host
  ({ i with Conn := some c6 }, i.messageChan, none)

/-- The bots name: the current nickname of the connection. -/
def IRC.UserName (i : IRC) : Except Panic String :=
  match i.Conn with
  | none => Except.error Panic.nilDeref
  | some c => Except.ok c.me.Nick

/-- Whether or not a message was sent by the bot. -/
def IRC.IsMe (i : IRC) (message : Message) : Except Panic Bool :=
  match i.UserName with
  | Except.error p => Except.error p
  | Except.ok n => Except.ok (decide (message.UserName = n))

/-- Sends a message. -/
def IRC.SendMessage (i : IRC) (channel message : String) :
    Except Panic (IRC × Option GoError) :=
  match i.Conn with
  | none => Except.error Panic.nilDeref
  | some c => Except.ok ({ i with Conn := some (c.Privmsg channel message) }, none)

/-- Deletes a message. -/
def IRC.DeleteMessage (i : IRC) (_channel _messageID : String) :
    Except Panic (IRC × Option GoError) :=
  Except.ok (i, some (errors.New "Deleting messages not supported on IRC."))

/-- Bans a user. -/
def IRC.BanUser (i : IRC) (channel userID : String) (_duration : Int) :
    Except Panic (IRC × Option GoError) :=
  match i.Conn with
  | none => Except.error Panic.nilDeref
  | some c => Except.ok ({ i with Conn := some (c.Kick channel userID) }, none)

/-- Sets the current game being played by the bot. -/
def IRC.SetPlaying (i : IRC) (_game : String) : Except Panic (IRC × Option GoError) :=
  Except.ok (i, some (errors.New "Set playing not supported on IRC."))

/-- Joins a channel. -/
def IRC.Join (i : IRC) (join : String) : Except Panic (IRC × Option GoError) :=
  match i.Conn with
  | none => Except.error Panic.nilDeref
  | some c => Except.ok ({ i with Conn := some (c.Join join) }, none)

/-- Sets that the bot is typing. -/
def IRC.Typing (i : IRC) (_channel : String) : Except Panic (IRC × Option GoError) :=
  Except.ok (i, some (errors.New "Typing not supported on IRC."))

/-- Sends a private message to a user. -/
def IRC.PrivateMessage (i : IRC) (userID message : String) :
    Except Panic (IRC × Option GoError) :=
  i.SendMessage userID message

/-- Whether the service supports multiline messages. -/
def IRC.SupportsMultiline (_i : IRC) : Bool := false

/-- The command prefix for the service. -/
def IRC.CommandPrefix (_i : IRC) : String := "!"

/-- Whether or not a message was private. -/
def IRC.IsPrivate (_i : IRC) (message : Message) : Bool :=
  decide (message.UserName = message.Channel)

/-! ## The adapter in its environment -/

/-- The calls issued so far on the connection of the adapter. -/
def IRC.calls (i : IRC) : List ConnCall :=
  match i.Conn with
  | none => []
  | some c => c.calls

/-- The lifecycle state of the adapter. -/
def IRC.phase (i : IRC) : Phase :=
  match i.Conn with
  | none => Phase.Unopened
  | some c => c.status

/-- The messages queued on the outbound channel, oldest first. -/
def IRC.queued (i : IRC) : List Message :=
  match i.messageChan with
  | none => []
  | some c => c.buf

/-- The library calls one registered handler, passing the connection it is
registered on; what the handler did to that connection is seen through the
handle of the adapter, which points to the same object. -/
def IRC.callHandler (cl : Client) (i : IRC) (h : Handler) (line : Line) : IRC :=
  match i.Conn with
  | none => i
  | some conn =>
    match h with
    | Handler.onConnect => { i with Conn := some (i.onConnect conn line) }
    | Handler.onDisconnect => { i with Conn := some (i.onDisconnect conn line) }
    | Handler.onMessage => IRC.onMessage cl i conn line

/-- The handlers registered for the event `name`, in registration order. -/
def Conn.handlersFor (c : Conn) (name : String) : List Handler :=
  (c.handlers.filter (fun p => decide (p.1 = name))).map Prod.snd

/-- The handlers of the adapter run for an event, one after the other. -/
def IRC.runHandlers (cl : Client) (i : IRC) (hs : List Handler) (line : Line) : IRC :=
  hs.foldl (fun s h => s.callHandler cl h line) i

/-- The transport raises the event `name` with `line` on the connection of the
adapter: the lifecycle status moves, then the handlers registered for `name`
run. Without a connection no event arrives. -/
def IRC.dispatch (cl : Client) (i : IRC) (name : String) (line : Line) : IRC :=
  match i.Conn with
  | none => i
  | some conn =>
    IRC.runHandlers cl { i with Conn := some (conn.signal name) } (conn.handlersFor name) line

/-- The consumer receives one message from the outbound channel, when there is
one. -/
def IRC.read (i : IRC) : IRC :=
  match i.messageChan with
  | none => i
  | some c =>
    match c.recv with
    | none => i
    | some (_, c1) => { i with messageChan := some c1 }

/-- The transport changes the own nickname of the connection. -/
def IRC.nickChanged (i : IRC) (n : String) : IRC :=
  match i.Conn with
  | none => i
  | some c => { i with Conn := some (c.setNick n) }

/-- The state after a method call; a call that panics leaves no new state. -/
def IRC.after (i : IRC) (r : Except Panic (IRC × Option GoError)) : IRC :=
  match r with
  | Except.ok (s, _) => s
  | Except.error _ => i

/-- What can happen to an opened adapter: a transport event, a change of the
own nickname, a read of the consumer, a call of a method of the service. -/
inductive Action where
  | event (name : String) (line : Line)
  | nick (n : String)
  | read
  | SendMessage (channel message : String)
  | DeleteMessage (channel messageID : String)
  | BanUser (channel userID : String) (duration : Int)
  | SetPlaying (game : String)
  | Join (join : String)
  | Typing (channel : String)
  | PrivateMessage (userID message : String)
  deriving DecidableEq, Repr

/-- One action on the adapter. -/
def IRC.step (cl : Client) (i : IRC) (a : Action) : IRC :=
  match a with
  | Action.event name line => i.dispatch cl name line
  | Action.nick n => i.nickChanged n
  | Action.read => i.read
  | Action.SendMessage c m => i.after (i.SendMessage c m)
  | Action.DeleteMessage c m => i.after (i.DeleteMessage c m)
  | Action.BanUser c u d => i.after (i.BanUser c u d)
  | Action.SetPlaying g => i.after (i.SetPlaying g)
  | Action.Join j => i.after (i.Join j)
  | Action.Typing c => i.after (i.Typing c)
  | Action.PrivateMessage u m => i.after (i.PrivateMessage u m)

/-- A sequence of actions on the adapter. -/
def IRC.run (cl : Client) (i : IRC) (as : List Action) : IRC :=
  as.foldl (fun s a => s.step cl a) i

/-- The adapter built by `NewIRC` and opened with `Open`. -/
def opened (cl : Client) (host nick : String) (channels : List String) : IRC :=
  (IRC.Open cl (NewIRC host nick channels)).1

/-- An example instance of the client library parameters: the target of a line
is its first argument, the text its last. -/
def sampleClient : Client :=
  { PRIVMSG := "PRIVMSG"
    Target := fun l => l.Args.headD ""
    Text := fun l => l.Args.getLastD ""
    DefaultVersion := "Powered by GoIRC"
    DefaultQuitMessage := "GoBye!" }

/-- An example line: `alice` says `hello` on `#a`. -/
def sampleLine : Line :=
  { Nick := "alice", Ident := "al", Host := "example.org", Src := "alice!al@example.org"
    Cmd := "PRIVMSG", Raw := ":alice!al@example.org PRIVMSG #a :hello", Args := ["#a", "hello"] }

/-- The registrations that `Open` makes on the connection, in its order. -/
def registered (cl : Client) : List (String × Handler) :=
  [("connected", Handler.onConnect), ("disconnected", Handler.onDisconnect),
   (cl.PRIVMSG, Handler.onMessage)]

/-- The calls that the handlers `hs` of an adapter with this host and these
channels issue on the connection, in order. -/
def issuedBy (host : String) (channels : List String) : List Handler → List ConnCall
  | [] => []
  | Handler.onConnect :: hs => channels.map ConnCall.Join ++ issuedBy host channels hs
  | Handler.onDisconnect :: hs => ConnCall.ConnectTo host :: issuedBy host channels hs
  | Handler.onMessage :: hs => issuedBy host channels hs

/-- The configuration and wiring of an adapter built with `host` and
`channels` and opened: the configuration is the one given, the connection
carries the three registrations, the outbound channel has capacity 200. -/
def Plugged (cl : Client) (host : String) (channels : List String) (s : IRC) : Prop :=
  s.host = host ∧ s.channels = channels ∧
  s.Conn.map Conn.handlers = some (registered cl) ∧
  s.messageChan.map Chan.cap = some 200

/-- The lifecycle rests in `Connecting` or `Connected`. -/
def Settled (s : IRC) : Prop :=
  s.phase = Phase.Connecting ∨ s.phase = Phase.Connected

/-! ## Lemmas on the handlers and on reachable states -/

/-- The loop of `onConnect` appends one `Join` per configured channel. -/
theorem onConnect_eq (i : IRC) (conn : Conn) (line : Line) :
    i.onConnect conn line
      = { conn with calls := conn.calls ++ i.channels.map ConnCall.Join } := by
  unfold IRC.onConnect
  generalize i.channels = chs
  induction chs generalizing conn with
  | nil => simp
  | cons x xs ih =>
    rw [List.foldl_cons, ih]
    simp [Conn.Join, List.append_assoc]

/-- A handler call keeps the wiring. -/
theorem callHandler_plugged (cl : Client) (host : String) (channels : List String)
    (s : IRC) (h : Handler) (line : Line) (hs : Plugged cl host channels s) :
    Plugged cl host channels (s.callHandler cl h line) := by
  obtain ⟨h1, h2, h3, h4⟩ := hs
  rcases s with ⟨sh, sn, sc, _ | conn, _ | q⟩ <;> simp at h3 h4
  cases h <;>
    simp_all [Plugged, IRC.callHandler, onConnect_eq, IRC.onDisconnect, Conn.ConnectTo,
      IRC.onMessage, Chan.send]
  split <;> simp_all

/-- A handler call appends the calls of that handler to the call log. -/
theorem callHandler_calls (cl : Client) (host : String) (channels : List String)
    (s : IRC) (h : Handler) (line : Line) (hs : Plugged cl host channels s) :
    (s.callHandler cl h line).calls = s.calls ++ issuedBy host channels [h] := by
  obtain ⟨h1, h2, h3, h4⟩ := hs
  rcases s with ⟨sh, sn, sc, _ | conn, _ | q⟩ <;> simp at h3 h4
  cases h <;>
    simp_all [IRC.callHandler, onConnect_eq, IRC.onDisconnect, Conn.ConnectTo,
      IRC.onMessage, IRC.calls, issuedBy]

/-- A handler call keeps a settled lifecycle settled. -/
theorem callHandler_settled (cl : Client) (s : IRC) (h : Handler) (line : Line)
    (hs : Settled s) : Settled (s.callHandler cl h line) := by
  rcases s with ⟨sh, sn, sc, _ | conn, _ | q⟩ <;>
    cases h <;>
    simp_all [Settled, IRC.callHandler, onConnect_eq, IRC.onDisconnect, Conn.ConnectTo,
      IRC.onMessage, IRC.phase]

/-- The handler `onDisconnect` settles the lifecycle of an opened adapter. -/
theorem callHandler_onDisconnect_phase (cl : Client) (s : IRC) (c : Conn) (line : Line)
    (hc : s.Conn = some c) :
    (s.callHandler cl Handler.onDisconnect line).phase = Phase.Connecting := by
  simp [IRC.callHandler, hc, IRC.onDisconnect, Conn.ConnectTo, IRC.phase]

/-- A run of handlers keeps the wiring. -/
theorem runHandlers_plugged (cl : Client) (host : String) (channels : List String)
    (hs : List Handler) (line : Line) (s : IRC) (h : Plugged cl host channels s) :
    Plugged cl host channels (s.runHandlers cl hs line) := by
  induction hs generalizing s with
  | nil => exact h
  | cons x xs ih => exact ih _ (callHandler_plugged cl host channels s x line h)

/-- A run of handlers keeps a settled lifecycle settled. -/
theorem runHandlers_settled (cl : Client) (hs : List Handler) (line : Line) (s : IRC)
    (h : Settled s) : Settled (s.runHandlers cl hs line) := by
  induction hs generalizing s with
  | nil => exact h
  | cons x xs ih => exact ih _ (callHandler_settled cl s x line h)

/-- A run of handlers appends the calls of those handlers, in order. -/
theorem runHandlers_calls (cl : Client) (host : String) (channels : List String)
    (hs : List Handler) (line : Line) (s : IRC) (h : Plugged cl host channels s) :
    (s.runHandlers cl hs line).calls = s.calls ++ issuedBy host channels hs := by
  induction hs generalizing s with
  | nil => simp [IRC.runHandlers, issuedBy]
  | cons x xs ih =>
    have h1 := ih _ (callHandler_plugged cl host channels s x line h)
    have h2 := callHandler_calls cl host channels s x line h
    simp only [IRC.runHandlers, List.foldl_cons] at h1 ⊢
    rw [h1, h2]
    cases x <;> simp [issuedBy]

/-- A wired adapter has a connection, and it carries the three registrations. -/
theorem plugged_conn (cl : Client) (host : String) (channels : List String) (s : IRC)
    (h : Plugged cl host channels s) :
    ∃ c, s.Conn = some c ∧ c.handlers = registered cl := by
  obtain ⟨_, _, h3, _⟩ := h
  cases hc : s.Conn with
  | none => simp [hc] at h3
  | some c => exact ⟨c, rfl, by simpa [hc] using h3⟩

/-- The lifecycle effect of an event keeps handlers and call log. -/
theorem signal_keeps (c : Conn) (name : String) :
    (c.signal name).handlers = c.handlers ∧ (c.signal name).calls = c.calls ∧
    (c.signal name).me = c.me := by
  unfold Conn.signal
  split
  · exact ⟨rfl, rfl, rfl⟩
  · split <;> exact ⟨rfl, rfl, rfl⟩

/-- The handlers that run for a `connected` event. -/
theorem handlersFor_connected (cl : Client) (c : Conn) (h : c.handlers = registered cl) :
    c.handlersFor "connected"
      = Handler.onConnect :: (if cl.PRIVMSG = "connected" then [Handler.onMessage] else []) := by
  by_cases hp : cl.PRIVMSG = "connected" <;>
    simp [Conn.handlersFor, h, registered, List.filter, hp]

/-- The handlers that run for a `disconnected` event. -/
theorem handlersFor_disconnected (cl : Client) (c : Conn) (h : c.handlers = registered cl) :
    c.handlersFor "disconnected"
      = Handler.onDisconnect ::
          (if cl.PRIVMSG = "disconnected" then [Handler.onMessage] else []) := by
  by_cases hp : cl.PRIVMSG = "disconnected" <;>
    simp [Conn.handlersFor, h, registered, List.filter, hp]

/-- The state in which the handlers of an event start is still wired. -/
theorem signalled_plugged (cl : Client) (host : String) (channels : List String) (s : IRC)
    (c : Conn) (name : String) (h : Plugged cl host channels s) (hc : s.Conn = some c) :
    Plugged cl host channels { s with Conn := some (c.signal name) } := by
  obtain ⟨h1, h2, h3, h4⟩ := h
  refine ⟨h1, h2, ?_, h4⟩
  simp only [hc, Option.map_some'] at h3 ⊢
  rw [(signal_keeps c name).1]
  exact h3

/-- A transport event keeps the wiring. -/
theorem dispatch_plugged (cl : Client) (host : String) (channels : List String) (s : IRC)
    (name : String) (line : Line) (h : Plugged cl host channels s) :
    Plugged cl host channels (s.dispatch cl name line) := by
  obtain ⟨c, hc, _⟩ := plugged_conn cl host channels s h
  simp only [IRC.dispatch, hc]
  exact runHandlers_plugged cl host channels _ line _
    (signalled_plugged cl host channels s c name h hc)

/-- A transport event appends the calls of the handlers registered for it. -/
theorem dispatch_calls (cl : Client) (host : String) (channels : List String) (s : IRC)
    (c : Conn) (name : String) (line : Line) (h : Plugged cl host channels s)
    (hc : s.Conn = some c) :
    (s.dispatch cl name line).calls
      = s.calls ++ issuedBy host channels (c.handlersFor name) := by
  simp only [IRC.dispatch, hc]
  rw [runHandlers_calls cl host channels _ line _
    (signalled_plugged cl host channels s c name h hc)]
  simp [IRC.calls, hc, (signal_keeps c name).2.1]

/-- A transport event leaves the lifecycle of a wired adapter settled. -/
theorem dispatch_settled (cl : Client) (host : String) (channels : List String) (s : IRC)
    (name : String) (line : Line) (h : Plugged cl host channels s) (hs : Settled s) :
    Settled (s.dispatch cl name line) := by
  obtain ⟨c, hc, hh⟩ := plugged_conn cl host channels s h
  simp only [IRC.dispatch, hc]
  by_cases hd : name = "disconnected"
  · subst hd
    rw [handlersFor_disconnected cl c hh]
    simp only [IRC.runHandlers, List.foldl_cons]
    apply runHandlers_settled
    left
    exact callHandler_onDisconnect_phase cl _ _ line rfl
  · apply runHandlers_settled
    by_cases hn : name = "connected"
    · right
      simp [IRC.phase, Conn.signal, hn]
    · simpa [Settled, IRC.phase, Conn.signal, hn, hd, hc] using hs

/-- Every action keeps the wiring and leaves the lifecycle settled. -/
theorem step_plugged_settled (cl : Client) (host : String) (channels : List String)
    (s : IRC) (a : Action) (h : Plugged cl host channels s) (hs : Settled s) :
    Plugged cl host channels (s.step cl a) ∧ Settled (s.step cl a) := by
  cases a with
  | event name line =>
    exact ⟨dispatch_plugged cl host channels s name line h,
      dispatch_settled cl host channels s name line h hs⟩
  | read =>
    obtain ⟨h1, h2, h3, h4⟩ := h
    rcases s with ⟨sh, sn, sc, conn, _ | q⟩
    · exact ⟨⟨h1, h2, h3, h4⟩, hs⟩
    · simp only [IRC.step, IRC.read]
      rcases q with ⟨cap, _ | ⟨x, rest⟩, _ | ⟨y, q2⟩⟩ <;>
        simp_all [Plugged, Settled, Chan.recv, IRC.phase]
  | _ =>
    obtain ⟨h1, h2, h3, h4⟩ := h
    rcases s with ⟨sh, sn, sc, _ | conn, ch⟩ <;>
      simp_all [Plugged, Settled, IRC.step, IRC.after, IRC.nickChanged, Conn.setNick,
        IRC.SendMessage, IRC.DeleteMessage, IRC.BanUser, IRC.SetPlaying, IRC.Join,
        IRC.Typing, IRC.PrivateMessage, Conn.Privmsg, Conn.Kick, Conn.Join, IRC.phase]

/-- Every state reached from a wired and settled one is wired and settled. -/
theorem run_plugged_settled (cl : Client) (host : String) (channels : List String)
    (acts : List Action) (s : IRC) (h : Plugged cl host channels s) (hs : Settled s) :
    Plugged cl host channels (s.run cl acts) ∧ Settled (s.run cl acts) := by
  induction acts generalizing s with
  | nil => exact ⟨h, hs⟩
  | cons a as ih =>
    obtain ⟨h1, h2⟩ := step_plugged_settled cl host channels s a h hs
    exact ih _ h1 h2

/-- The adapter fresh from `NewIRC` and `Open` is wired and connecting. -/
theorem opened_plugged_settled (cl : Client) (host nick : String) (channels : List String) :
    Plugged cl host channels (opened cl host nick channels) ∧
    Settled (opened cl host nick channels) := by
  refine ⟨⟨rfl, rfl, ?_, rfl⟩, Or.inl rfl⟩
  simp [opened, IRC.Open, NewIRC, Conn.ConnectTo, Conn.HandleFunc, Client.SimpleClient,
    registered]

/-- Every state reached from the opened adapter is wired and settled. -/
theorem reachable_plugged_settled (cl : Client) (host nick : String)
    (channels : List String) (acts : List Action) :
    Plugged cl host channels ((opened cl host nick channels).run cl acts) ∧
    Settled ((opened cl host nick channels).run cl acts) :=
  run_plugged_settled cl host channels acts _ (opened_plugged_settled cl host nick channels).1
    (opened_plugged_settled cl host nick channels).2

/-- The handlers `onConnect` and `onMessage` do not move the lifecycle. -/
theorem callHandler_phase_keep (cl : Client) (s : IRC) (line : Line) :
    (s.callHandler cl Handler.onConnect line).phase = s.phase ∧
    (s.callHandler cl Handler.onMessage line).phase = s.phase := by
  rcases s with ⟨sh, sn, sc, _ | conn, _ | q⟩ <;>
    simp [IRC.callHandler, onConnect_eq, IRC.onMessage, IRC.phase]

/-- The lifecycle after the handlers of a `connected` event is the one they
started in. -/
theorem runHandlers_connected_phase (cl : Client) (s : IRC) (line : Line) :
    (s.runHandlers cl
      (Handler.onConnect :: (if cl.PRIVMSG = "connected" then [Handler.onMessage] else []))
      line).phase = s.phase := by
  by_cases hp : cl.PRIVMSG = "connected" <;>
    simp [IRC.runHandlers, hp, (callHandler_phase_keep cl _ line).1,
      (callHandler_phase_keep cl _ line).2]

/-- The lifecycle after the handlers of a `disconnected` event on an opened
adapter is `Connecting`. -/
theorem runHandlers_disconnected_phase (cl : Client) (s : IRC) (c : Conn) (line : Line)
    (hc : s.Conn = some c) :
    (s.runHandlers cl
      (Handler.onDisconnect ::
        (if cl.PRIVMSG = "disconnected" then [Handler.onMessage] else []))
      line).phase = Phase.Connecting := by
  by_cases hp : cl.PRIVMSG = "disconnected" <;>
    simp [IRC.runHandlers, hp, (callHandler_phase_keep cl _ line).2,
      callHandler_onDisconnect_phase cl s c line hc]

/-! ## Message accessors and pure predicates -/

/-- C9: for every IRCMessage, whatever line it wraps, `UserAvatar()` is the
empty string, `MessageID()` is the empty string and `IsModerator()` is false;
the three are total and give the same for any two messages, and the interface
value built from the message shows the same three values. -/
theorem IRCMessage_optional_accessors (cl : Client) (line other : Line) :
    IRCMessage.UserAvatar ⟨line⟩ = "" ∧
    IRCMessage.MessageID ⟨line⟩ = "" ∧
    IRCMessage.IsModerator ⟨line⟩ = false ∧
    IRCMessage.UserAvatar ⟨line⟩ = IRCMessage.UserAvatar ⟨other⟩ ∧
    IRCMessage.MessageID ⟨line⟩ = IRCMessage.MessageID ⟨other⟩ ∧
    IRCMessage.IsModerator ⟨line⟩ = IRCMessage.IsModerator ⟨other⟩ ∧
    (IRCMessage.toMessage cl ⟨line⟩).UserAvatar = "" ∧
    (IRCMessage.toMessage cl ⟨line⟩).MessageID = "" ∧
    (IRCMessage.toMessage cl ⟨line⟩).IsModerator = false :=
  ⟨rfl, rfl, rfl, rfl, rfl, rfl, rfl, rfl, rfl⟩

/-- C5: for every adapter and every message, `IsPrivate(msg)` is true exactly
when `msg.Channel() == msg.UserName()`; it is true for a message whose channel
and user name are both empty; and any two adapters give the same answer. -/
theorem IsPrivate_iff_channel_eq_userName (i j : IRC) (msg : Message)
    (userID avatar text messageID : String) (moderator : Bool) :
    (i.IsPrivate msg = true ↔ msg.Channel = msg.UserName) ∧
    i.IsPrivate ⟨"", "", userID, avatar, text, messageID, moderator⟩ = true ∧
    i.IsPrivate msg = j.IsPrivate msg := by
  refine ⟨?_, ?_, rfl⟩
  · simp only [IRC.IsPrivate, decide_eq_true_eq]
    exact eq_comm
  · simp [IRC.IsPrivate]

/-- C6: in every adapter state and for all arguments, `DeleteMessage`,
`Typing` and `SetPlaying` return without a panic, the returned error is not
nil and carries the text of the source, and the adapter (host, nick, channels,
connection handle with its call log, outbound channel) is the one before the
call; so it is for the adapter fresh from `NewIRC`, whose handle is nil. -/
theorem unsupported_methods_return_error (i : IRC) (channel messageID game : String)
    (host nick : String) (channels : List String) :
    i.DeleteMessage channel messageID
      = Except.ok (i, some (errors.New "Deleting messages not supported on IRC.")) ∧
    i.Typing channel = Except.ok (i, some (errors.New "Typing not supported on IRC.")) ∧
    i.SetPlaying game = Except.ok (i, some (errors.New "Set playing not supported on IRC.")) ∧
    i.after (i.DeleteMessage channel messageID) = i ∧
    i.after (i.Typing channel) = i ∧
    i.after (i.SetPlaying game) = i ∧
    (i.after (i.DeleteMessage channel messageID)).calls = i.calls ∧
    (i.after (i.Typing channel)).calls = i.calls ∧
    (i.after (i.SetPlaying game)).calls = i.calls ∧
    (NewIRC host nick channels).Conn = none ∧
    (NewIRC host nick channels).DeleteMessage channel messageID
      = Except.ok (NewIRC host nick channels,
          some (errors.New "Deleting messages not supported on IRC.")) ∧
    (NewIRC host nick channels).Typing channel
      = Except.ok (NewIRC host nick channels, some (errors.New "Typing not supported on IRC.")) ∧
    (NewIRC host nick channels).SetPlaying game
      = Except.ok (NewIRC host nick channels,
          some (errors.New "Set playing not supported on IRC.")) :=
  ⟨rfl, rfl, rfl, rfl, rfl, rfl, rfl, rfl, rfl, rfl, rfl, rfl, rfl⟩

/-- C7: `PrivateMessage(userID, text)` and `SendMessage(userID, text)` give the
same outcome from every adapter state; on an opened adapter (handle `c`) that
outcome is: no panic, a nil error, and a state that differs from the one
before only by one more call on the connection, `Privmsg(userID, text)`. -/
theorem PrivateMessage_eq_SendMessage (i : IRC) (c : Conn) (userID text : String) :
    i.PrivateMessage userID text = i.SendMessage userID text ∧
    ({ i with Conn := some c } : IRC).PrivateMessage userID text
      = Except.ok ({ i with Conn := some (c.Privmsg userID text) }, none) ∧
    ({ i with Conn := some c } : IRC).SendMessage userID text
      = Except.ok ({ i with Conn := some (c.Privmsg userID text) }, none) ∧
    (IRC.after { i with Conn := some c }
        (({ i with Conn := some c } : IRC).PrivateMessage userID text)).calls
      = c.calls ++ [ConnCall.Privmsg userID text] ∧
    (IRC.after { i with Conn := some c }
        (({ i with Conn := some c } : IRC).SendMessage userID text)).calls
      = c.calls ++ [ConnCall.Privmsg userID text] :=
  ⟨rfl, rfl, rfl, rfl, rfl⟩

/-- C8: on an opened adapter (handle `c`), `BanUser(channel, userID, duration)`
returns a nil error without a panic and leaves a state that differs from the
one before only by one more call on the connection, `Kick(channel, userID)`;
for any two durations the outcome (result and state) is the same, on every
adapter state. -/
theorem BanUser_kicks_and_ignores_duration (i : IRC) (c : Conn) (channel userID : String)
    (d1 d2 : Int) :
    ({ i with Conn := some c } : IRC).BanUser channel userID d1
      = Except.ok ({ i with Conn := some (c.Kick channel userID) }, none) ∧
    (IRC.after { i with Conn := some c }
        (({ i with Conn := some c } : IRC).BanUser channel userID d1)).calls
      = c.calls ++ [ConnCall.Kick channel userID] ∧
    ({ i with Conn := some c } : IRC).BanUser channel userID d1
      = ({ i with Conn := some c } : IRC).BanUser channel userID d2 ∧
    i.BanUser channel userID d1 = i.BanUser channel userID d2 :=
  ⟨rfl, rfl, rfl, rfl⟩

/-- C4: on an opened adapter (handle `c`), `UserName()` is the current
nickname of the connection and `IsMe(msg)` is true exactly when
`msg.UserName()` equals it, whatever nick was given at construction; when the
nickname of the connection changes from `n` to a different `n2`, `IsMe` is
afterwards true for a message from `n2` and false for a message from `n`. -/
theorem IsMe_follows_connection_nick (i : IRC) (c : Conn) (msg fromOld fromNew : Message)
    (n n2 : String) (hne : n ≠ n2) (hcur : c.me.Nick = n)
    (hold : fromOld.UserName = n) (hnew : fromNew.UserName = n2) :
    ({ i with Conn := some c } : IRC).UserName = Except.ok c.me.Nick ∧
    ({ i with Conn := some c } : IRC).IsMe msg = Except.ok (decide (msg.UserName = c.me.Nick)) ∧
    (∀ b, ({ i with Conn := some c } : IRC).IsMe msg = Except.ok b →
        (b = true ↔ Except.ok msg.UserName = ({ i with Conn := some c } : IRC).UserName)) ∧
    ({ i with Conn := some c } : IRC).IsMe fromOld = Except.ok true ∧
    (IRC.nickChanged { i with Conn := some c } n2).UserName = Except.ok n2 ∧
    (IRC.nickChanged { i with Conn := some c } n2).IsMe fromNew = Except.ok true ∧
    (IRC.nickChanged { i with Conn := some c } n2).IsMe fromOld = Except.ok false := by
  subst hcur
  refine ⟨rfl, rfl, ?_, ?_, rfl, ?_, ?_⟩
  · intro b hb
    simp only [IRC.IsMe, IRC.UserName, Except.ok.injEq] at hb ⊢
    subst hb
    simp
  · simp [IRC.IsMe, IRC.UserName, hold]
  · simp [IRC.IsMe, IRC.UserName, IRC.nickChanged, Conn.setNick, hnew]
  · simp [IRC.IsMe, IRC.UserName, IRC.nickChanged, Conn.setNick, hold, hne]

/-- C4, at an instance: the adapter was built with nick `bot`, the connection
holds `bot` and then changes to `bot_`. -/
theorem IsMe_follows_connection_nick_witness :
    "bot" ≠ "bot_" ∧
    (IRC.nickChanged
        { NewIRC "irc.example.org:6667" "bot" ["#a"] with
          Conn := some (sampleClient.SimpleClient "bot" "Septapus" "Septapus") } "bot_").IsMe
        ⟨"#a", "bot_", "bot_", "", "hi", "", false⟩ = Except.ok true ∧
    (IRC.nickChanged
        { NewIRC "irc.example.org:6667" "bot" ["#a"] with
          Conn := some (sampleClient.SimpleClient "bot" "Septapus" "Septapus") } "bot_").IsMe
        ⟨"#a", "bot", "bot", "", "hi", "", false⟩ = Except.ok false :=
  have h := IsMe_follows_connection_nick (NewIRC "irc.example.org:6667" "bot" ["#a"])
    (sampleClient.SimpleClient "bot" "Septapus" "Septapus")
    ⟨"#a", "carol", "carol", "", "hi", "", false⟩
    ⟨"#a", "bot", "bot", "", "hi", "", false⟩ ⟨"#a", "bot_", "bot_", "", "hi", "", false⟩
    "bot" "bot_" (by decide) rfl rfl rfl
  ⟨by decide, h.2.2.2.2.2.1, h.2.2.2.2.2.2⟩

/-- C3: when the outbound channel has room, `onMessage` appends exactly one
message to it, behind the messages already queued, parks no sender and touches
nothing else of the adapter; the appended message wraps the line: `UserName()`
and `UserID()` are the nick of the line, `Channel()` is its target and
`Message()` its text. -/
theorem onMessage_appends_wrapped_line (cl : Client) (i : IRC) (c : Chan Message)
    (conn : Conn) (line : Line)
    (hchan : i.messageChan = some c) (hroom : c.buf.length < c.cap) :
    (IRC.onMessage cl i conn line).messageChan
      = some { c with buf := c.buf ++ [IRCMessage.toMessage cl ⟨line⟩] } ∧
    (IRC.onMessage cl i conn line).queued
      = i.queued ++ [IRCMessage.toMessage cl ⟨line⟩] ∧
    (IRC.onMessage cl i conn line).host = i.host ∧
    (IRC.onMessage cl i conn line).nick = i.nick ∧
    (IRC.onMessage cl i conn line).channels = i.channels ∧
    (IRC.onMessage cl i conn line).Conn = i.Conn ∧
    (IRCMessage.toMessage cl ⟨line⟩).UserName = line.Nick ∧
    (IRCMessage.toMessage cl ⟨line⟩).UserID = line.Nick ∧
    (IRCMessage.toMessage cl ⟨line⟩).Channel = cl.Target line ∧
    (IRCMessage.toMessage cl ⟨line⟩).Message = cl.Text line := by
  have hs : c.send (IRCMessage.toMessage cl ⟨line⟩)
      = { c with buf := c.buf ++ [IRCMessage.toMessage cl ⟨line⟩] } := by
    simp [Chan.send, hroom]
  refine ⟨?_, ?_, ?_, ?_, ?_, ?_, rfl, rfl, rfl, rfl⟩ <;>
    simp [IRC.onMessage, IRC.queued, hchan, hs]

/-- C3, at an instance: two lines arrive on a fresh adapter and are queued in
arrival order. -/
theorem onMessage_appends_wrapped_line_witness :
    (IRC.onMessage sampleClient
        (IRC.onMessage sampleClient (opened sampleClient "h" "bot" [])
          (sampleClient.SimpleClient "bot" "Septapus" "Septapus") sampleLine)
        (sampleClient.SimpleClient "bot" "Septapus" "Septapus")
        { sampleLine with Nick := "bob", Args := ["#a", "hi alice"] }).queued
      = [⟨"#a", "alice", "alice", "", "hello", "", false⟩,
         ⟨"#a", "bob", "bob", "", "hi alice", "", false⟩] := by
  have h := onMessage_appends_wrapped_line sampleClient
    (IRC.onMessage sampleClient (opened sampleClient "h" "bot" [])
      (sampleClient.SimpleClient "bot" "Septapus" "Septapus") sampleLine)
    ⟨200, [⟨"#a", "alice", "alice", "", "hello", "", false⟩], []⟩
    (sampleClient.SimpleClient "bot" "Septapus" "Septapus")
    { sampleLine with Nick := "bob", Args := ["#a", "hi alice"] } rfl (by decide)
  rw [h.2.1]
  rfl

/-! ## Connection lifecycle -/

/-- C1: in every state reached from the adapter built by `NewIRC(host, nick,
channels)` and opened, whatever events, reads and method calls came before, a
`connected` event adds to the call log of the connection exactly one `Join`
per element of `channels`, in the order supplied and with duplicates, and
nothing else; the lifecycle is then `Connected`; a second `connected` event
adds the same sequence once more; with an empty channel list the call log
stays as it was. -/
theorem connected_event_joins_channels (cl : Client) (host nick : String)
    (channels : List String) (acts : List Action) (line line2 : Line) :
    (((opened cl host nick channels).run cl acts).dispatch cl "connected" line).calls
      = ((opened cl host nick channels).run cl acts).calls
          ++ channels.map ConnCall.Join ∧
    (((opened cl host nick channels).run cl acts).dispatch cl "connected" line).phase
      = Phase.Connected ∧
    ((((opened cl host nick channels).run cl acts).dispatch cl "connected" line).dispatch cl
        "connected" line2).calls
      = ((opened cl host nick channels).run cl acts).calls
          ++ channels.map ConnCall.Join ++ channels.map ConnCall.Join ∧
    (((opened cl host nick []).run cl acts).dispatch cl "connected" line).calls
      = ((opened cl host nick []).run cl acts).calls := by
  have key : ∀ (chs : List String) (s : IRC) (l : Line), Plugged cl host chs s →
      (s.dispatch cl "connected" l).calls = s.calls ++ chs.map ConnCall.Join ∧
      (s.dispatch cl "connected" l).phase = Phase.Connected := by
    intro chs s l hp
    obtain ⟨c, hc, hh⟩ := plugged_conn cl host chs s hp
    refine ⟨?_, ?_⟩
    · rw [dispatch_calls cl host chs s c "connected" l hp hc, handlersFor_connected cl c hh]
      by_cases hq : cl.PRIVMSG = "connected" <;> simp [issuedBy, hq]
    · simp only [IRC.dispatch, hc]
      rw [handlersFor_connected cl c hh, runHandlers_connected_phase]
      simp [IRC.phase, Conn.signal]
  have hp := (reachable_plugged_settled cl host nick channels acts).1
  have h1 := key channels _ line hp
  have h2 := key channels _ line2 (dispatch_plugged cl host channels _ "connected" line hp)
  have h3 := key [] _ line (reachable_plugged_settled cl host nick [] acts).1
  refine ⟨h1.1, h1.2, ?_, ?_⟩
  · rw [h2.1, h1.1]
  · simpa using h3.1

/-- C2: in every state reached from the adapter built by `NewIRC(host, nick,
channels)` and opened, whatever events, reads and method calls came before, a
`disconnected` event adds to the call log of the connection exactly one call,
`ConnectTo(host)` with the host given at construction, and leaves the
lifecycle in `Connecting`: the handlers start in `Disconnected` and end in
`Connecting`. No reached state rests in `Disconnected` or is back in
`Unopened`, and from every reached state some action changes the lifecycle
state, so none is terminal. -/
theorem disconnected_event_reconnects (cl : Client) (host nick : String)
    (channels : List String) (acts : List Action) (line : Line) :
    (((opened cl host nick channels).run cl acts).dispatch cl "disconnected" line).calls
      = ((opened cl host nick channels).run cl acts).calls ++ [ConnCall.ConnectTo host] ∧
    (((opened cl host nick channels).run cl acts).dispatch cl "disconnected" line).phase
      = Phase.Connecting ∧
    (∃ c, ((opened cl host nick channels).run cl acts).Conn = some c ∧
      IRC.phase { (opened cl host nick channels).run cl acts with
          Conn := some (c.signal "disconnected") } = Phase.Disconnected ∧
      ((opened cl host nick channels).run cl acts).dispatch cl "disconnected" line
        = IRC.runHandlers cl { (opened cl host nick channels).run cl acts with
            Conn := some (c.signal "disconnected") } (c.handlersFor "disconnected") line) ∧
    ((opened cl host nick channels).run cl acts).phase ≠ Phase.Disconnected ∧
    ((opened cl host nick channels).run cl acts).phase ≠ Phase.Unopened ∧
    (∃ a, (((opened cl host nick channels).run cl acts).step cl a).phase
      ≠ ((opened cl host nick channels).run cl acts).phase) := by
  obtain ⟨hp, hs⟩ := reachable_plugged_settled cl host nick channels acts
  generalize (opened cl host nick channels).run cl acts = s at hp hs ⊢
  obtain ⟨c, hc, hh⟩ := plugged_conn cl host channels s hp
  have hph : (s.dispatch cl "disconnected" line).phase = Phase.Connecting := by
    simp only [IRC.dispatch, hc]
    rw [handlersFor_disconnected cl c hh]
    exact runHandlers_disconnected_phase cl _ _ line rfl
  refine ⟨?_, hph, ⟨c, hc, ?_, ?_⟩, ?_, ?_, ?_⟩
  · rw [dispatch_calls cl host channels s c "disconnected" line hp hc,
      handlersFor_disconnected cl c hh]
    by_cases hq : cl.PRIVMSG = "disconnected" <;> simp [issuedBy, hq]
  · simp [IRC.phase, Conn.signal]
  · simp only [IRC.dispatch, hc]
  · rcases hs with h | h <;> simp [h]
  · rcases hs with h | h <;> simp [h]
  · rcases hs with h | h
    · refine ⟨Action.event "connected" line, ?_⟩
      have hk : (s.dispatch cl "connected" line).phase = Phase.Connected := by
        simp only [IRC.dispatch, hc]
        rw [handlersFor_connected cl c hh, runHandlers_connected_phase]
        simp [IRC.phase, Conn.signal]
      simp [IRC.step, hk, h]
    · refine ⟨Action.event "disconnected" line, ?_⟩
      simp [IRC.step, hph, h]

/-! ## Backpressure on the outbound channel -/

/-- C10: the outbound channel made by `NewIRC` has capacity 200 and keeps it
in every state reached from the opened adapter. When the channel holds as many
messages as its capacity and no other sender waits, the send of `onMessage`
does not complete: the sender is parked with the wrapped line, the queued
messages and the rest of the adapter are as before. One read of the consumer
then takes the oldest queued message and completes the parked send: the pushed
message is queued last and no sender waits any more. -/
theorem full_channel_parks_push (cl : Client) (host nick : String) (channels : List String)
    (acts : List Action) (i : IRC) (q : Chan Message) (conn : Conn) (line : Line)
    (hchan : i.messageChan = some q) (hpos : 0 < q.cap) (hfull : q.buf.length = q.cap)
    (hidle : q.sendq = []) :
    (NewIRC host nick channels).messageChan = some (Chan.make 200) ∧
    (Chan.make 200 : Chan Message).cap = 200 ∧
    ((opened cl host nick channels).run cl acts).messageChan.map Chan.cap = some 200 ∧
    q.sendCompletes = false ∧
    (IRC.onMessage cl i conn line).messageChan
      = some { q with sendq := [IRCMessage.toMessage cl ⟨line⟩] } ∧
    (IRC.onMessage cl i conn line).queued = i.queued ∧
    (IRC.onMessage cl i conn line).host = i.host ∧
    (IRC.onMessage cl i conn line).nick = i.nick ∧
    (IRC.onMessage cl i conn line).channels = i.channels ∧
    (IRC.onMessage cl i conn line).Conn = i.Conn ∧
    (∃ x rest, q.buf = x :: rest ∧
      (IRC.onMessage cl i conn line).read.messageChan
        = some { q with buf := rest ++ [IRCMessage.toMessage cl ⟨line⟩], sendq := [] } ∧
      (IRC.onMessage cl i conn line).read.queued
        = rest ++ [IRCMessage.toMessage cl ⟨line⟩]) := by
  have hs : q.send (IRCMessage.toMessage cl ⟨line⟩)
      = { q with sendq := [IRCMessage.toMessage cl ⟨line⟩] } := by
    simp [Chan.send, hfull, hidle]
  refine ⟨rfl, rfl, (reachable_plugged_settled cl host nick channels acts).1.2.2.2, ?_, ?_, ?_,
    ?_, ?_, ?_, ?_, ?_⟩
  · simp [Chan.sendCompletes, hfull]
  · simp [IRC.onMessage, hchan, hs]
  · simp [IRC.onMessage, IRC.queued, hchan, hs]
  · simp [IRC.onMessage, hchan]
  · simp [IRC.onMessage, hchan]
  · simp [IRC.onMessage, hchan]
  · simp [IRC.onMessage, hchan]
  · rcases q with ⟨cap, buf, sq⟩
    cases buf with
    | nil =>
      simp at hfull hpos
      omega
    | cons x rest =>
      refine ⟨x, rest, rfl, ?_, ?_⟩ <;>
        simp_all [IRC.onMessage, IRC.read, IRC.queued, Chan.send, Chan.recv]

/-- C10, at an instance: the channel of an adapter holds 200 messages; the
next line parks, and after one read it is the last of the 200 queued. -/
theorem full_channel_parks_push_witness :
    (IRC.onMessage sampleClient
        { NewIRC "h" "bot" [] with
          messageChan := some ⟨200, List.replicate 200 (IRCMessage.toMessage sampleClient
            ⟨sampleLine⟩), []⟩ }
        (sampleClient.SimpleClient "bot" "Septapus" "Septapus")
        { sampleLine with Nick := "bob" }).queued
      = List.replicate 200 (IRCMessage.toMessage sampleClient ⟨sampleLine⟩) ∧
    (IRC.onMessage sampleClient
        { NewIRC "h" "bot" [] with
          messageChan := some ⟨200, List.replicate 200 (IRCMessage.toMessage sampleClient
            ⟨sampleLine⟩), []⟩ }
        (sampleClient.SimpleClient "bot" "Septapus" "Septapus")
        { sampleLine with Nick := "bob" }).read.queued
      = List.replicate 199 (IRCMessage.toMessage sampleClient ⟨sampleLine⟩)
          ++ [IRCMessage.toMessage sampleClient ⟨{ sampleLine with Nick := "bob" }⟩] := by
  have h := full_channel_parks_push sampleClient "h" "bot" [] []
    { NewIRC "h" "bot" [] with
      messageChan := some ⟨200, List.replicate 200 (IRCMessage.toMessage sampleClient
        ⟨sampleLine⟩), []⟩ }
    ⟨200, List.replicate 200 (IRCMessage.toMessage sampleClient ⟨sampleLine⟩), []⟩
    (sampleClient.SimpleClient "bot" "Septapus" "Septapus")
    { sampleLine with Nick := "bob" } rfl (by decide) (List.length_replicate _ _) rfl
  obtain ⟨_, _, _, _, _, hq, _, _, _, _, x, rest, hb, _, hr⟩ := h
  refine ⟨hq, ?_⟩
  rw [hr]
  have hb2 : List.replicate 200 (IRCMessage.toMessage sampleClient ⟨sampleLine⟩)
      = x :: rest := hb
  rw [show (200 : Nat) = 199 + 1 from rfl, List.replicate_succ] at hb2
  rw [(List.cons.inj hb2).2]

end Bruxism
